import Mathlib

/-!
Shallow embedding of `src/nwm/nwm.c` (the state-tracking and event-dispatch
core of the nwm window manager).

Conventions of the embedding:
* `nwm_emit` is a stub in the source (the Node transport is not implemented);
  following the spec, each `nwm_emit(kind, data)` call site is recorded in the
  trace as an `Op.emit` entry carrying the event payload built at that site.
* Xlib requests that mutate server state are recorded as `Op.req` entries.
* Results of Xlib queries (`XGetWindowAttributes`, `XGetTransientForHint`,
  `XineramaQueryScreens`, `XGetClassHint`, pointer queries, property reads)
  are passed in as parameters, since they come from the display server.
* Machine integers of the C code are modelled as `Int`/`Nat`; no arithmetic
  in the modelled fragments can overflow a C `int`.
-/

namespace Nwm

/-- Normalized events emitted to the external controller (the payloads built
at the `nwm_emit` call sites of `nwm.c`). -/
inductive NwmEvent where
  | addWindow (id : Nat) (x y w h : Int) (floating : Bool)
  | updateWindowTitle (id : Nat) (title klass inst : String)
  | removeWindow (id : Nat)
  | fullscreen (id : Nat) (fs : Bool)
  | addMonitor (id : Nat) (x y w h : Int)
  | updateMonitor (id : Nat) (x y w h : Int)
  | removeMonitor (id : Nat)
  | enterNotify (id : Nat) (x y : Int)
  | rearrange
  deriving DecidableEq

/-- X protocol requests issued by the modelled fragments of `nwm.c`. -/
inductive XReq where
  | moveWindow (win : Nat) (x y : Int)
  | resizeWindow (win : Nat) (w h : Int)
  | configureWindow (win : Nat) (x y w h border above detail mask : Int)
  | sendConfigureNotify (win : Nat) (x y w h border : Int)
  | setInputFocus (win : Nat)
  | sendTakeFocus (win : Nat)
  | grabButtons (win : Nat) (focused : Bool)
  | ungrabButton (win : Nat)
  | grabServer
  | ungrabServer
  | sync
  | flush
  | changeProperty (win : Nat) (atom : Nat) (nelements : Nat)
  | raiseWindow (win : Nat)
  | ungrabKeyAll
  | grabKey (keycode : Nat) (mod : Nat)
  | selectInput (win : Nat)
  | mapWindow (win : Nat)
  | moveResizeWindow (win : Nat) (x y w h : Int)
  deriving DecidableEq

/-- One observable step: a normalized event emission or an X request. -/
inductive Op where
  | emit (e : NwmEvent)
  | req (r : XReq)
  deriving DecidableEq

/-- The fields of the static `nwm` struct used by the modelled fragments. -/
structure NwmState where
  total_monitors : Nat
  screen_width : Int
  screen_height : Int
  root : Nat
  selected : Nat
  deriving DecidableEq

/-! ## Monitor registry (`nwm_scan_monitors`, `nwm_update_selected_monitor`) -/

/-- One `XineramaScreenInfo` entry (geometry fields used by `nwm.c`). -/
structure ScreenInfo where
  x_org : Int
  y_org : Int
  width : Int
  height : Int
  deriving DecidableEq

/-- Modelled from the spec: `isuniquegeom` lives in `x11_misc.cc`, which is not
in the repository snapshot; per the spec a region is unique iff no previously
accepted region in this pass shares all four coordinates. -/
def isuniquegeom (unique : List ScreenInfo) (info : ScreenInfo) : Bool :=
  !unique.contains info

/-- The dedup pass of `nwm_scan_monitors` (`for(i = 0, j = 0; i < nn; i++) if
(isuniquegeom(unique, j, &info[i])) memcpy(&unique[j++], ...)`). -/
def dedupGeoms (infos : List ScreenInfo) : List ScreenInfo :=
  infos.foldl (fun acc s => if isuniquegeom acc s then acc ++ [s] else acc) []

/-- The `nwm.total_monitors <= nn` branch of `nwm_scan_monitors`: walk the
unique geometries with index `i`; if `i >= nwm.total_monitors` emit
`onAddMonitor` and increment `total_monitors`, else emit `onUpdateMonitor`.
Returns the final `total_monitors` and the ops in emission order. -/
def monAddUpdate (total i : Nat) : List ScreenInfo → Nat × List Op
  | [] => (total, [])
  | s :: rest =>
    if i ≥ total then
      let r := monAddUpdate (total + 1) (i + 1) rest
      (r.1, .emit (.addMonitor i s.x_org s.y_org s.width s.height) :: r.2)
    else
      let r := monAddUpdate total (i + 1) rest
      (r.1, .emit (.updateMonitor i s.x_org s.y_org s.width s.height) :: r.2)

/-- The `else` (fewer monitors) branch of `nwm_scan_monitors`:
`for(i = nn; i < nwm.total_monitors; i++) { emit onRemoveMonitor(i);
nwm.total_monitors--; }`.  Note the loop condition re-reads
`nwm.total_monitors`, which the body decrements, so the bound shrinks while
`i` grows; the recursion below is exactly that loop (second argument is the
current `total_monitors`). -/
def monRemove : Nat → Nat → Nat × List Op
  | _, 0 => (0, [])
  | i, t + 1 =>
    if i < t + 1 then
      let r := monRemove (i + 1) t
      (r.1, .emit (.removeMonitor i) :: r.2)
    else (t + 1, [])

/-- `nwm_update_selected_monitor`: if the pointer can be queried on the root
window, emit an `onEnterNotify` carrying the root id and pointer location. -/
def nwm_update_selected_monitor (st : NwmState) (ptr : Option (Int × Int)) :
    List Op :=
  match ptr with
  | some p => [.emit (.enterNotify st.root p.1 p.2)]
  | none => []

/-- `nwm_scan_monitors`.  `xineramaActive` is the `XineramaIsActive` result,
`query` the `XineramaQueryScreens` result, `ptr` the root-pointer query used
by `nwm_update_selected_monitor`.  Returns the updated state and the trace. -/
def nwm_scan_monitors (st : NwmState) (xineramaActive : Bool)
    (query : List ScreenInfo) (ptr : Option (Int × Int)) :
    NwmState × List Op :=
  if !xineramaActive && st.total_monitors == 0 then
    ({ st with total_monitors := st.total_monitors + 1 },
     .emit (.addMonitor 0 0 0 st.screen_width st.screen_height)
       :: nwm_update_selected_monitor st ptr)
  else
    let unique := dedupGeoms query
    let nn := unique.length
    if st.total_monitors ≤ nn then
      let r := monAddUpdate st.total_monitors 0 unique
      ({ st with total_monitors := r.1 },
       r.2 ++ nwm_update_selected_monitor st ptr)
    else
      let r := monRemove nn st.total_monitors
      ({ st with total_monitors := r.1 },
       r.2 ++ nwm_update_selected_monitor st ptr)

/-- Selector for the monitor lifecycle events among a trace's ops. -/
def isMonitorEvent : Op → Bool
  | .emit (.addMonitor _ _ _ _ _) => true
  | .emit (.updateMonitor _ _ _ _ _) => true
  | .emit (.removeMonitor _) => true
  | _ => false

/-! ## Window registry and lifecycle -/

/-- The `XWindowAttributes` fields consulted by `nwm.c` (`viewable` stands for
`map_state == IsViewable`). -/
structure WinAttrs where
  override_redirect : Bool
  viewable : Bool
  x : Int
  y : Int
  width : Int
  height : Int
  border_width : Int
  deriving DecidableEq

/-- Per-window results of the X property queries performed by
`nwm_add_window` / `nwm_update_window`.
`netName` / `legacyName` are the `gettextprop` reads of `_NET_WM_NAME` resp.
`WM_NAME` (`none` = property unreadable or empty; `gettextprop` is in
`x11_misc.cc`, not in the snapshot — modelled from the spec: on failure the
buffer holds the empty string, so the `name[0] == 0` check in `nwm.c` fires).
`classHint` is the `XGetClassHint` result: `none` when the call fails,
otherwise the possibly-NULL `res_class` and `res_name` strings.
`garbageKlass` / `garbageInst` stand for the contents of the uninitialized
256-byte stack buffers `klass` and `instance` of `nwm_update_window`, which
the C code reads back unwritten when `XGetClassHint` fails.
`transient_for` is the `XGetTransientForHint` result used by
`nwm_add_window`. -/
structure WinMeta where
  netName : Option String
  legacyName : Option String
  classHint : Option (Option String × Option String)
  transient_for : Option Nat
  garbageKlass : String
  garbageInst : String
  deriving DecidableEq

/-- `nwm_update_window`: read the name (extended then legacy, `"broken"` if
empty), read the class hint — when `XGetClassHint` succeeds, fall back to
`"broken"` for NULL `res_class`/`res_name`; when it fails, the `klass` and
`instance` buffers are never written, so whatever is on the stack is emitted —
then emit `onUpdateWindow` with the three strings. -/
def nwm_update_window (win : Nat) (m : WinMeta) : Op :=
  let name :=
    match m.netName with
    | some s => s
    | none =>
      match m.legacyName with
      | some s => s
      | none => ""
  let name := if name = "" then "broken" else name
  let ki :=
    match m.classHint with
    | some rcrn =>
      ((match rcrn.1 with
        | some c => c
        | none => "broken"),
       (match rcrn.2 with
        | some n => n
        | none => "broken"))
    | none => (m.garbageKlass, m.garbageInst)
  .emit (.updateWindowTitle win name ki.1 ki.2)

/-- `nwm_add_window`: derive floating from the transient-for hint, emit
`onAddWindow`, refresh metadata (`nwm_update_window`), send the synthetic
`ConfigureNotify`, select per-window events, arm button grabs, raise if
floating, then move/resize and map. -/
def nwm_add_window (win : Nat) (wa : WinAttrs) (m : WinMeta) : List Op :=
  let isfloating := m.transient_for.isSome
  [.emit (.addWindow win wa.x wa.y wa.width wa.height isfloating),
   nwm_update_window win m,
   .req (.sendConfigureNotify win wa.x wa.y wa.width wa.height wa.border_width),
   .req (.selectInput win),
   .req (.grabButtons win false)]
  ++ (if isfloating then [.req (.raiseWindow win)] else [])
  ++ [.req (.moveResizeWindow win wa.x wa.y wa.width wa.height),
      .req (.mapWindow win)]

/-- `nwm_focus_window`: arm button grabs, set input focus, send the
WM_TAKE_FOCUS client message, flush, and record `nwm.selected = win`. -/
def nwm_focus_window (st : NwmState) (win : Nat) : NwmState × List Op :=
  ({ st with selected := win },
   [.req (.grabButtons win true), .req (.setInputFocus win),
    .req (.sendTakeFocus win), .req .flush])

/-- `nwm_remove_window`: emit `onRemoveWindow`; if not destroyed server-side,
release the button grabs under a server grab; then focus the root window and
emit `onRearrange`. -/
def nwm_remove_window (st : NwmState) (win : Nat) (destroyed : Bool) :
    NwmState × List Op :=
  let ungrab : List Op :=
    if !destroyed then
      [.req .grabServer, .req (.ungrabButton win), .req .sync,
       .req .ungrabServer]
    else []
  let f := nwm_focus_window st st.root
  (f.1, .emit (.removeWindow win) :: ungrab ++ f.2 ++ [.emit .rearrange])

/-! ## Startup scan (`nwm_scan_windows`) -/

/-- One child of the root window as seen by the startup scan: its id, the
`XGetWindowAttributes` result (`none` = the call failed), and whether
`XGetTransientForHint` succeeds for it. -/
structure XWin where
  id : Nat
  attrs : Option WinAttrs
  transient : Bool
  deriving DecidableEq

/-- First pass of `nwm_scan_windows`: skip windows with unreadable attributes,
override-redirect windows, and transients; add the viewable ones.  Returns
the ids passed to `nwm_add_window`, in order. -/
def scanPass1 : List XWin → List Nat
  | [] => []
  | w :: rest =>
    match w.attrs with
    | none => scanPass1 rest
    | some a =>
      if a.override_redirect || w.transient then scanPass1 rest
      else if a.viewable then w.id :: scanPass1 rest
      else scanPass1 rest

/-- Second pass of `nwm_scan_windows` ("now the transients"): skip windows
with unreadable attributes; add each window whose transient-for hint succeeds
and that is viewable.  (Unlike the first pass, this pass does not test
`override_redirect`.) -/
def scanPass2 : List XWin → List Nat
  | [] => []
  | w :: rest =>
    match w.attrs with
    | none => scanPass2 rest
    | some a =>
      if w.transient && a.viewable then w.id :: scanPass2 rest
      else scanPass2 rest

/-- `nwm_scan_windows`: both passes over the `XQueryTree` children, in order;
the result is the sequence of ids handed to `nwm_add_window`. -/
def nwm_scan_windows (wins : List XWin) : List Nat :=
  scanPass1 wins ++ scanPass2 wins

/-- The condition under which the first pass adds a window. -/
def pass1Adds (w : XWin) : Bool :=
  match w.attrs with
  | none => false
  | some a => !a.override_redirect && !w.transient && a.viewable

/-- The condition under which the second pass adds a window (note: no
`override_redirect` test). -/
def pass2Adds (w : XWin) : Bool :=
  match w.attrs with
  | none => false
  | some a => w.transient && a.viewable

/-! ## Key grab table (`nwm_grab_keys`) -/

/-- An entry of the `nwm.keys` binding list. -/
structure Key where
  keysym : Nat
  mod : Nat
  deriving DecidableEq

/-- The X11 `LockMask` constant (caps lock). -/
def LockMask : Nat := 2

/-- Modelled from the spec: `updatenumlockmask` lives in `x11_misc.cc`, which
is not in the snapshot; per the spec it scans the modifier-mapping table for
the keycode of the numlock symbol (rows indexed by modifier; first match
wins) and returns that modifier's bit, or 0 when absent. -/
def updatenumlockmask (nkc : Nat) : Nat → List (List Nat) → Nat
  | _, [] => 0
  | i, row :: rest =>
    if row.contains nkc then 2 ^ i else updatenumlockmask nkc (i + 1) rest

/-- The four (keycode, modifier) grabs issued for one binding: its own
modifier combined with each of `{0, LockMask, numlockmask,
numlockmask|LockMask}`.  `keycodeOf` is `XKeysymToKeycode`. -/
def bindingGrabs (keycodeOf : Nat → Nat) (numlock : Nat) (k : Key) :
    List (Nat × Nat) :=
  [0, LockMask, numlock, numlock ||| LockMask].map
    fun m => (keycodeOf k.keysym, k.mod ||| m)

/-- The grab loop of `nwm_grab_keys` over the binding list. -/
def grabLoop (keycodeOf : Nat → Nat) (numlock : Nat) :
    List Key → List (Nat × Nat)
  | [] => []
  | k :: rest =>
    bindingGrabs keycodeOf numlock k ++ grabLoop keycodeOf numlock rest

/-- `nwm_grab_keys`: recompute `numlockmask` from the modifier mapping,
ungrab every key on the root window (`XUngrabKey(AnyKey, AnyModifier)`
empties the grab set), then grab each binding four times.  Returns the grab
set held on the root window afterwards (the prior set `grabs` is discarded
by the ungrab-all) and the request trace. -/
def nwm_grab_keys (keycodeOf : Nat → Nat) (modmap : List (List Nat))
    (nkc : Nat) (keys : List Key) (grabs : List (Nat × Nat)) :
    List (Nat × Nat) × List Op :=
  let numlock := updatenumlockmask nkc 0 modmap
  let newGrabs := grabLoop keycodeOf numlock keys
  (newGrabs,
   .req .ungrabKeyAll :: newGrabs.map fun g => .req (.grabKey g.1 g.2))

/-- Selector for key-grab requests in a trace. -/
def isGrabKeyReq : Op → Bool
  | .req (.grabKey _ _) => true
  | _ => false

/-! ## Event handlers -/

/-- `event_maprequest`: bail out if `XGetWindowAttributes` fails or the window
is override-redirect; then the source sets `Bool found = True;` (a placeholder
marked `TODO TODO TODO FIXME` for the managed-set membership test, which is
never consulted) and only adds the window and emits `onRearrange` when
`!found`.  `seen` is the managed-window set the placeholder was meant to
query; the source ignores it. -/
def event_maprequest (attrs : Option WinAttrs) (m : WinMeta)
    (seen : List Nat) (win : Nat) : List Op :=
  match attrs with
  | none => []
  | some wa =>
    if wa.override_redirect then []
    else
      let found := true
      if !found then nwm_add_window win wa m ++ [.emit .rearrange]
      else []

/-- A client message as consumed by `event_clientmessage`: target window, the
message-type atom, and the first two data words (`data.l[0]`, `data.l[1]`;
the second is compared against an atom). -/
structure ClientMessage where
  window : Nat
  message_type : Nat
  data0 : Int
  data1 : Nat
  deriving DecidableEq

/-- `event_clientmessage`: only a `_NET_WM_STATE` message whose second data
word is the fullscreen atom does anything — `data.l[0]` nonzero sets the
fullscreen property and raises the window, zero clears the property; either
way an `onFullscreen` event is emitted.  Any other message falls through the
guard and the handler returns with no request and no event. -/
def event_clientmessage (netWMState netWMFullscreen : Nat)
    (cme : ClientMessage) : List Op :=
  if cme.message_type == netWMState && cme.data1 == netWMFullscreen then
    (if cme.data0 ≠ 0 then
      [.req (.changeProperty cme.window netWMState 1),
       .req (.raiseWindow cme.window)]
    else
      [.req (.changeProperty cme.window netWMState 0)])
    ++ [.emit (.fullscreen cme.window (cme.data0 ≠ 0))]
  else []

/-! ## Command wrappers -/

/-- `nwm_move_window`: `XMoveWindow` then `XFlush`. -/
def nwm_move_window (win : Nat) (x y : Int) : List Op :=
  [.req (.moveWindow win x y), .req .flush]

/-- `nwm_resize_window`: `XResizeWindow` then `XFlush`. -/
def nwm_resize_window (win : Nat) (w h : Int) : List Op :=
  [.req (.resizeWindow win w h), .req .flush]

/-- `nwm_configure_window`: fill an `XWindowChanges` and call
`XConfigureWindow`; the function returns without flushing. -/
def nwm_configure_window (win : Nat)
    (x y w h border above detail mask : Int) : List Op :=
  [.req (.configureWindow win x y w h border above detail mask)]

/-- `nwm_notify_window`: send a synthetic `ConfigureNotify` to the window via
`XSendEvent`; the function returns without flushing. -/
def nwm_notify_window (win : Nat)
    (x y w h border : Int) (above detail mask : Int) : List Op :=
  [.req (.sendConfigureNotify win x y w h border)]

/-! ## Helper lemmas -/

lemma scanPass1_eq (wins : List XWin) :
    scanPass1 wins = (wins.filter pass1Adds).map XWin.id := by
  induction wins with
  | nil => rfl
  | cons w ws ih =>
    obtain ⟨i, attrsOpt, tr⟩ := w
    cases attrsOpt with
    | none => simpa [scanPass1, pass1Adds] using ih
    | some a =>
      obtain ⟨orr, vw, x, y, wd, ht, bw⟩ := a
      cases orr <;> cases tr <;> cases vw <;>
        simp [scanPass1, pass1Adds, ih]

lemma scanPass2_eq (wins : List XWin) :
    scanPass2 wins = (wins.filter pass2Adds).map XWin.id := by
  induction wins with
  | nil => rfl
  | cons w ws ih =>
    obtain ⟨i, attrsOpt, tr⟩ := w
    cases attrsOpt with
    | none => simpa [scanPass2, pass2Adds] using ih
    | some a =>
      obtain ⟨orr, vw, x, y, wd, ht, bw⟩ := a
      cases tr <;> cases vw <;>
        simp [scanPass2, pass2Adds, ih]

lemma grabReqs_filter_length (l : List (Nat × Nat)) :
    ((l.map fun g => Op.req (.grabKey g.1 g.2)).filter isGrabKeyReq).length
      = l.length := by
  induction l with
  | nil => rfl
  | cons g gs ih => simp [isGrabKeyReq, ih]

lemma grabLoop_length (keycodeOf : Nat → Nat) (numlock : Nat)
    (keys : List Key) :
    (grabLoop keycodeOf numlock keys).length = 4 * keys.length := by
  induction keys with
  | nil => rfl
  | cons k ks ih =>
    simp [grabLoop, bindingGrabs, ih, Nat.mul_succ]

/-! ## Claims -/

/-- C1: the map-request handler never emits a second add for an
already-managed window (it in fact never adds at all): the membership test is
the placeholder `Bool found = True;`, so even for a window that is not
override-redirect, has readable attributes and is not in the managed set
(here the empty set), the handler calls `nwm_add_window` on no window and
emits neither an add-window nor a rearrange event — the trace is empty,
contradicting the claim's second half. -/
theorem C1_maprequest_placeholder_never_adds :
    (42 ∉ ([] : List Nat))
    ∧ event_maprequest (some ⟨false, true, 5, 6, 100, 80, 1⟩)
        ⟨some "term", none, some (some "Term", some "term"), none, "", ""⟩
        [] 42 = [] := by
  exact ⟨by simp, rfl⟩

/-- C2 counterexample: with previously known count 3 and a query whose unique
geometries number 1, the code does NOT emit remove-monitor events for indices
2 then 1 with a final count of 1: the removal loop's bound `nwm.total_monitors`
is decremented inside the loop body, so the loop stops after one iteration. -/
theorem C2_shrink_counterexample :
    ¬ ((((nwm_scan_monitors ⟨3, 1920, 1080, 1, 1⟩ true
            [⟨0, 0, 1920, 1080⟩] none).2.filter isMonitorEvent)
          = [.emit (.removeMonitor 2), .emit (.removeMonitor 1)])
        ∧ (nwm_scan_monitors ⟨3, 1920, 1080, 1, 1⟩ true
            [⟨0, 0, 1920, 1080⟩] none).1.total_monitors = 1) := by
  decide

/-- C2 amended: with previously known count 3 and a new unique-geometry count
of 1, reconciliation emits exactly one remove-monitor event, for index 1, and
afterwards the known count equals 2 (the removal loop walks ascending from
the new count, and its bound shrinks as the count is decremented). -/
theorem C2_shrink_amended (st : NwmState) (query : List ScreenInfo)
    (ptr : Option (Int × Int)) (h3 : st.total_monitors = 3)
    (h1 : (dedupGeoms query).length = 1) :
    (((nwm_scan_monitors st true query ptr).2.filter isMonitorEvent)
       = [.emit (.removeMonitor 1)])
    ∧ (nwm_scan_monitors st true query ptr).1.total_monitors = 2 := by
  cases ptr <;>
    simp [nwm_scan_monitors, h3, h1, monRemove,
      nwm_update_selected_monitor, isMonitorEvent]

/-- Witness for C2 amended at a concrete shrink from 3 monitors to 1. -/
theorem C2_shrink_amended_witness :
    (((nwm_scan_monitors ⟨3, 1920, 1080, 1, 1⟩ true [⟨0, 0, 1920, 1080⟩]
        none).2.filter isMonitorEvent) = [.emit (.removeMonitor 1)])
    ∧ (nwm_scan_monitors ⟨3, 1920, 1080, 1, 1⟩ true [⟨0, 0, 1920, 1080⟩]
        none).1.total_monitors = 2 :=
  C2_shrink_amended ⟨3, 1920, 1080, 1, 1⟩ [⟨0, 0, 1920, 1080⟩] none rfl
    (by decide)

/-- C3: at the failing input — name property unreadable on both reads and
`XGetClassHint` failing — the emitted update-window-title event carries the
placeholder `"broken"` as the title, but the class and instance are whatever
the uninitialized stack buffers hold (here the empty string), not `"broken"`:
the claim's class/instance fallback does not happen in the code. -/
theorem C3_update_window_uninitialized_class :
    nwm_update_window 7 ⟨none, none, none, none, "", ""⟩
      = .emit (.updateWindowTitle 7 "broken" "" "")
    ∧ "" ≠ "broken" := by
  exact ⟨rfl, by decide⟩

/-- C4: with previously known count 1 and a new unique-geometry count of 3,
reconciliation emits an update-monitor event for index 0 followed by
add-monitor events for indices 1 and 2 (ascending order), and the known
count afterwards equals 3. -/
theorem C4_grow_events (st : NwmState) (query : List ScreenInfo)
    (ptr : Option (Int × Int)) (a b c : ScreenInfo)
    (h1 : st.total_monitors = 1) (hq : dedupGeoms query = [a, b, c]) :
    (((nwm_scan_monitors st true query ptr).2.filter isMonitorEvent)
       = [.emit (.updateMonitor 0 a.x_org a.y_org a.width a.height),
          .emit (.addMonitor 1 b.x_org b.y_org b.width b.height),
          .emit (.addMonitor 2 c.x_org c.y_org c.width c.height)])
    ∧ (nwm_scan_monitors st true query ptr).1.total_monitors = 3 := by
  cases ptr <;>
    simp [nwm_scan_monitors, h1, hq, monAddUpdate,
      nwm_update_selected_monitor, isMonitorEvent]

/-- Witness for C4 at a concrete grow from 1 monitor to 3. -/
theorem C4_grow_events_witness :
    (((nwm_scan_monitors ⟨1, 1920, 1080, 1, 1⟩ true
        [⟨0, 0, 960, 1080⟩, ⟨960, 0, 960, 1080⟩, ⟨0, 1080, 1920, 200⟩]
        none).2.filter isMonitorEvent)
       = [.emit (.updateMonitor 0 0 0 960 1080),
          .emit (.addMonitor 1 960 0 960 1080),
          .emit (.addMonitor 2 0 1080 1920 200)])
    ∧ (nwm_scan_monitors ⟨1, 1920, 1080, 1, 1⟩ true
        [⟨0, 0, 960, 1080⟩, ⟨960, 0, 960, 1080⟩, ⟨0, 1080, 1920, 200⟩]
        none).1.total_monitors = 3 :=
  C4_grow_events ⟨1, 1920, 1080, 1, 1⟩
    [⟨0, 0, 960, 1080⟩, ⟨960, 0, 960, 1080⟩, ⟨0, 1080, 1920, 200⟩]
    none ⟨0, 0, 960, 1080⟩ ⟨960, 0, 960, 1080⟩ ⟨0, 1080, 1920, 200⟩
    rfl (by decide)

/-- C5: with the multi-head extension inactive, the first rescan (known count
0) registers one synthetic full-screen monitor and emits exactly one
add-monitor event; but the next rescan while still inactive is NOT a no-op —
the short-circuit only fires when `total_monitors == 0`, so the code falls
into the extension-reconciliation path (with the inactive query reporting no
regions), emits a remove-monitor event for index 0, and drops the count to 0,
contradicting the claim's second half. -/
theorem C5_inactive_rescan_not_noop :
    ((nwm_scan_monitors ⟨0, 800, 600, 1, 1⟩ false [] none).1.total_monitors = 1
      ∧ ((nwm_scan_monitors ⟨0, 800, 600, 1, 1⟩ false []
            none).2.filter isMonitorEvent)
          = [.emit (.addMonitor 0 0 0 800 600)])
    ∧ (((nwm_scan_monitors ⟨1, 800, 600, 1, 1⟩ false []
            none).2.filter isMonitorEvent)
          = [.emit (.removeMonitor 0)]
      ∧ (nwm_scan_monitors ⟨1, 800, 600, 1, 1⟩ false []
            none).1.total_monitors = 0) := by
  decide

/-- C6: after `nwm_remove_window st win false`, the selected window is the
root window, and the call's trace contains exactly one rearrange event. -/
theorem C6_remove_window_focuses_root (st : NwmState) (win : Nat) :
    (nwm_remove_window st win false).1.selected = st.root
    ∧ ((nwm_remove_window st win false).2.filter
        fun o => o = Op.emit .rearrange).length = 1 := by
  simp [nwm_remove_window, nwm_focus_window]

/-- C7 counterexample: a child of root that is override-redirect (first
attribute field), transient and viewable, with readable attributes, IS added
by the startup scan (in the second pass), so the scan does not skip
override-redirect windows in both passes. -/
theorem C7_scan_adds_override_redirect :
    (WinAttrs.override_redirect ⟨true, true, 0, 0, 10, 10, 0⟩ = true)
    ∧ nwm_scan_windows [⟨5, some ⟨true, true, 0, 0, 10, 10, 0⟩, true⟩]
        = [5] := by
  exact ⟨rfl, rfl⟩

/-- C7 amended: the first pass adds exactly the children with readable
attributes that are neither override-redirect nor transient and are viewable;
the second pass adds exactly the children with readable attributes that are
transient and viewable — without re-testing override-redirect — and every
first-pass (non-transient) add precedes every second-pass (transient) add. -/
theorem C7_scan_windows_two_pass (wins : List XWin) :
    nwm_scan_windows wins
      = ((wins.filter pass1Adds).map XWin.id)
        ++ ((wins.filter pass2Adds).map XWin.id) := by
  unfold nwm_scan_windows
  rw [scanPass1_eq, scanPass2_eq]

/-- C8 counterexample: neither `nwm_configure_window` nor `nwm_notify_window`
flushes the connection before returning (their traces contain no flush),
refuting the claim that all four command wrappers flush. -/
theorem C8_configure_notify_no_flush :
    Op.req .flush ∉ nwm_configure_window 9 0 0 640 480 1 0 0 15
    ∧ Op.req .flush ∉ nwm_notify_window 9 0 0 640 480 1 0 0 15 := by
  decide

/-- C8 amended: `move` and `resize` each produce exactly the trace consisting
of their protocol request followed by a flush (so the flush comes after the
request, before returning); `configure` and `notify_configure` each produce
exactly their protocol request and return without flushing. -/
theorem C8_wrappers_flush (win : Nat)
    (x y w h border above detail mask : Int) :
    nwm_move_window win x y
        = [Op.req (.moveWindow win x y), Op.req .flush]
    ∧ nwm_resize_window win w h
        = [Op.req (.resizeWindow win w h), Op.req .flush]
    ∧ nwm_configure_window win x y w h border above detail mask
        = [Op.req (.configureWindow win x y w h border above detail mask)]
    ∧ nwm_notify_window win x y w h border above detail mask
        = [Op.req (.sendConfigureNotify win x y w h border)] := by
  exact ⟨rfl, rfl, rfl, rfl⟩

/-- C9: `nwm_grab_keys` first empties the root window's key-grab set (its
trace starts with the unconditional ungrab-all), then issues exactly four
grab requests per binding; the resulting grab set depends only on the binding
list, the modifier mapping and the keycode mapping, so a second call with the
same inputs leaves the same final grab set as the first. -/
theorem C9_grab_keys_idempotent (keycodeOf : Nat → Nat)
    (modmap : List (List Nat)) (nkc : Nat) (keys : List Key)
    (g0 : List (Nat × Nat)) :
    (nwm_grab_keys keycodeOf modmap nkc keys
        (nwm_grab_keys keycodeOf modmap nkc keys g0).1).1
      = (nwm_grab_keys keycodeOf modmap nkc keys g0).1
    ∧ (nwm_grab_keys keycodeOf modmap nkc keys g0).2.head?
        = some (.req .ungrabKeyAll)
    ∧ (((nwm_grab_keys keycodeOf modmap nkc keys g0).2.filter
          isGrabKeyReq).length)
        = 4 * keys.length := by
  refine ⟨rfl, rfl, ?_⟩
  unfold nwm_grab_keys
  simp [isGrabKeyReq, grabReqs_filter_length, grabLoop_length]

/-- C10: a client message whose type is not the `_NET_WM_STATE` atom or whose
second data word is not the fullscreen atom produces an empty trace: no
property change, no raise, no emitted event (and the handler touches no local
state); only the fullscreen-state message reaches the toggle path. -/
theorem C10_clientmessage_ignores_other_messages
    (netWMState netWMFullscreen : Nat) (cme : ClientMessage)
    (h : cme.message_type ≠ netWMState ∨ cme.data1 ≠ netWMFullscreen) :
    event_clientmessage netWMState netWMFullscreen cme = [] := by
  rcases h with h | h <;> simp [event_clientmessage, h]

/-- Witness for C10: a message of an unrelated type (with matching second
data word) yields the empty trace. -/
theorem C10_clientmessage_ignores_other_messages_witness :
    event_clientmessage 100 101 ⟨7, 99, 1, 101⟩ = [] :=
  C10_clientmessage_ignores_other_messages 100 101 ⟨7, 99, 1, 101⟩
    (Or.inl (by decide))

end Nwm
